import Mathlib

/-!
Shallow embedding of the bulk-ingestion pipeline of the reporting service
(`fastapi-app/main.py`, handler `insert_data`), together with theorems
checking the specified properties of that pipeline against the code.

The embedding models:
 - the loosely-typed input records (Python dicts) as association lists;
 - the Python standard-library call `datetime.fromisoformat` (CPython <= 3.10
   grammar, the commonly used subset) and `str.replace("Z", "+00:00")`;
 - the database as lists of rows per table, with the two `SELECT COUNT(*)`
   existence checks and the `INSERT ... RETURNING id` statements as explicit
   operations, recorded in a trace;
 - store-level failures (connectivity, constraint violations, type coercion)
   through an oracle saying which operations fail;
 - the surrounding transaction: on any uncaught failure the database reverts
   to its state at the start of the call (rollback) and the handler surfaces
   an HTTP 500; the broad `except Exception` in the source also intercepts
   the `HTTPException(400)` raised for an unknown table name and re-raises
   it with status 500.
-/

/-- The result of Python `datetime.fromisoformat`: a naive or offset-aware
datetime. `tzOffset` is the UTC offset in minutes, when present. -/
structure PyDateTime where
  year : Nat
  month : Nat
  day : Nat
  hour : Nat
  minute : Nat
  second : Nat
  usec : Nat
  tzOffset : Option Int
deriving DecidableEq

/-- A value held in a loosely-typed input record (Python dict values as the
pipeline can observe them): strings, integers, parsed datetimes, or null. -/
inductive Value where
  | str (s : String)
  | int (n : Int)
  | dt (d : PyDateTime)
  | null
deriving DecidableEq

/-- Numeric value of a decimal digit character, if it is one. -/
def digitVal (c : Char) : Option Nat :=
  if c.isDigit then some (c.toNat - 48) else none

/-- Read exactly two decimal digits. -/
def read2 : List Char → Option (Nat × List Char)
  | a :: b :: rest =>
    match digitVal a, digitVal b with
    | some x, some y => some (10 * x + y, rest)
    | _, _ => none
  | _ => none

/-- Read exactly three decimal digits. -/
def read3 : List Char → Option (Nat × List Char)
  | a :: b :: c :: rest =>
    match digitVal a, digitVal b, digitVal c with
    | some x, some y, some z => some (100 * x + 10 * y + z, rest)
    | _, _, _ => none
  | _ => none

/-- Read exactly four decimal digits. -/
def read4 : List Char → Option (Nat × List Char)
  | a :: b :: c :: d :: rest =>
    match digitVal a, digitVal b, digitVal c, digitVal d with
    | some w, some x, some y, some z => some (1000 * w + 100 * x + 10 * y + z, rest)
    | _, _, _, _ => none
  | _ => none

/-- Gregorian leap-year rule, as used by the Python `datetime` module. -/
def isLeap (y : Nat) : Bool :=
  (y % 4 == 0 && y % 100 != 0) || y % 400 == 0

/-- Number of days in a month, as validated by the Python `datetime` module. -/
def daysInMonth (y m : Nat) : Nat :=
  if m == 2 then (if isLeap y then 29 else 28)
  else if m == 4 || m == 6 || m == 9 || m == 11 then 30
  else 31

/-- Fractional-second part after the dot: exactly three or six digits,
yielding microseconds (models `fromisoformat`'s `.fff`/`.ffffff`). -/
def parseFrac (cs : List Char) : Option (Nat × List Char) :=
  match read3 cs with
  | none => none
  | some (f1, r1) =>
    match read3 r1 with
    | some (f2, r2) => some (f1 * 1000 + f2, r2)
    | none => some (f1 * 1000, r1)

/-- The optional UTC-offset suffix `+HH:MM` / `-HH:MM` at the end of the
time string; `some none` means the string ended with no offset. -/
def parseTz : List Char → Option (Option Int)
  | [] => some none
  | '+' :: rest =>
    (match read2 rest with
     | some (h, ':' :: r2) =>
       match read2 r2 with
       | some (m, []) =>
         if h ≤ 23 && m ≤ 59 then some (some (Int.ofNat (h * 60 + m))) else none
       | _ => none
     | _ => none)
  | '-' :: rest =>
    (match read2 rest with
     | some (h, ':' :: r2) =>
       match read2 r2 with
       | some (m, []) =>
         if h ≤ 23 && m ≤ 59 then some (some (-(Int.ofNat (h * 60 + m)))) else none
       | _ => none
     | _ => none)
  | _ => none

/-- The time-of-day part `HH[:MM[:SS[.frac]]]` followed by the optional
UTC offset, with the range checks the `datetime` constructor performs. -/
def parseTimeTz (cs : List Char) : Option (Nat × Nat × Nat × Nat × Option Int) :=
  match read2 cs with
  | none => none
  | some (h, r1) =>
    let finish := fun (mn sc us : Nat) (rest : List Char) =>
      match parseTz rest with
      | none => none
      | some tz =>
        if h ≤ 23 && mn ≤ 59 && sc ≤ 59 then some (h, mn, sc, us, tz) else none
    match r1 with
    | ':' :: r2 =>
      (match read2 r2 with
       | none => none
       | some (mn, r3) =>
         match r3 with
         | ':' :: r4 =>
           (match read2 r4 with
            | none => none
            | some (sc, r5) =>
              match r5 with
              | '.' :: r6 =>
                (match parseFrac r6 with
                 | none => none
                 | some (us, r7) => finish mn sc us r7)
              | _ => finish mn sc 0 r5)
         | _ => finish mn 0 0 r3)
    | _ => finish 0 0 0 r1

/-- Model of the Python standard-library call `datetime.fromisoformat`
(CPython <= 3.10 grammar: `YYYY-MM-DD` optionally followed by a one-character
separator and `HH[:MM[:SS[.fff[fff]]]][(+|-)HH:MM]`), on a character list.
This is external library behavior, modelled here because the library is not
repository code; the pipeline calls it after replacing `Z` with `+00:00`. -/
def pyFromIsoChars (cs : List Char) : Option PyDateTime :=
  match read4 cs with
  | none => none
  | some (y, r1) =>
    match r1 with
    | '-' :: r2 =>
      (match read2 r2 with
       | none => none
       | some (mo, r3) =>
         match r3 with
         | '-' :: r4 =>
           (match read2 r4 with
            | none => none
            | some (dy, r5) =>
              if 1 ≤ y && 1 ≤ mo && mo ≤ 12 && 1 ≤ dy && dy ≤ daysInMonth y mo then
                match r5 with
                | [] => some ⟨y, mo, dy, 0, 0, 0, 0, none⟩
                | _ :: r6 =>
                  (match parseTimeTz r6 with
                   | none => none
                   | some (h, mn, sc, us, tz) => some ⟨y, mo, dy, h, mn, sc, us, tz⟩)
              else none)
         | _ => none)
    | _ => none

/-- Model of `datetime.fromisoformat` on strings. -/
def pyFromIso (s : String) : Option PyDateTime :=
  pyFromIsoChars s.data

/-- Model of `s.replace("Z", "+00:00")` on a character list: every occurrence
of the character `Z` becomes the six characters `+00:00`. -/
def replaceZList : List Char → List Char
  | [] => []
  | c :: rest =>
    if c = 'Z' then '+' :: '0' :: '0' :: ':' :: '0' :: '0' :: replaceZList rest
    else c :: replaceZList rest

/-- Model of the source's `record["hire_datetime"].replace("Z", "+00:00")`. -/
def replaceZ (s : String) : String :=
  ⟨replaceZList s.data⟩

/-- A raw input record: the Python dict received from the caller, as an
association list from field name to value (insertion order preserved). -/
abbrev Rec := List (String × Value)

/-- Python `field in record`: key membership. -/
def recHasKey (r : Rec) (k : String) : Bool :=
  r.any (fun p => p.1 == k)

/-- Python `record[field]`: value of the first binding of the key. -/
def recFind (r : Rec) (k : String) : Option Value :=
  (r.find? (fun p => p.1 == k)).map Prod.snd

/-- Python `record[k] = v`: update the binding in place (keys keep their
position; a missing key is appended, which cannot happen in the pipeline). -/
def recSet : Rec → String → Value → Rec
  | [], k, v => [(k, v)]
  | (k1, v1) :: rest, k, v =>
    if k1 == k then (k1, v) :: rest else (k1, v1) :: recSet rest k v

/-- The source's `TABLE_SCHEMAS` lookup table: target entity name to the
ordered list of required field names; `none` models a missing key. -/
def TABLE_SCHEMAS (t : String) : Option (List String) :=
  if t = "departments" then some ["department"]
  else if t = "jobs" then some ["job"]
  else if t = "hired_employees" then some ["name", "hire_datetime", "department_id", "job_id"]
  else none

/-- The source's structural check
`all(field in record for field in required_fields)`. -/
def structOk (req : List String) (rec : Rec) : Bool :=
  req.all (fun f => recHasKey rec f)

/-- A store-level error raised by an asyncpg call: connectivity loss,
constraint violation, or parameter type-coercion failure. -/
inductive StoreErr where
  | unavailable
  | constraint
  | coercion
deriving DecidableEq

/-- An uncaught exception inside the handler body: a store error, or the
`AttributeError` raised by calling `.replace` on a non-string
`hire_datetime` value (only `ValueError` is caught by the source). -/
inductive PipeErr where
  | typeError
  | store (e : StoreErr)
deriving DecidableEq

/-- The database: rows of the three tables, each row carrying its
store-assigned integer id, plus the next id the store will assign. -/
structure DB where
  departments : List (Int × List Value)
  jobs : List (Int × List Value)
  hired_employees : List (Int × List Value)
  nextId : Int
deriving DecidableEq

/-- `INSERT INTO <table> (...) VALUES (...) RETURNING id`: append the row
with a store-assigned id and return the id. -/
def insertInto (db : DB) (table : String) (vals : List Value) : DB × Int :=
  let id := db.nextId
  if table = "departments" then
    ({ db with departments := db.departments ++ [(id, vals)], nextId := id + 1 }, id)
  else if table = "jobs" then
    ({ db with jobs := db.jobs ++ [(id, vals)], nextId := id + 1 }, id)
  else
    ({ db with hired_employees := db.hired_employees ++ [(id, vals)], nextId := id + 1 }, id)

/-- Failure oracle: which store calls fail, and how, during this call. -/
structure Oracle where
  depFails : Value → Option StoreErr
  jobFails : Value → Option StoreErr
  insFails : String → List Value → Option StoreErr

/-- `SELECT COUNT(*) FROM <table> WHERE id = $1`: number of rows whose id
equals the parameter; a SQL NULL parameter matches no row, and a non-integer
parameter fails type coercion. -/
def countWhereId (rows : List (Int × List Value)) (v : Value) : Except StoreErr Nat :=
  match v with
  | .int i => .ok (rows.countP (fun row => row.1 == i))
  | .null => .ok 0
  | _ => .error .coercion

/-- The departments existence check, subject to the failure oracle. -/
def fetchCountDep (o : Oracle) (db : DB) (v : Value) : Except StoreErr Nat :=
  match o.depFails v with
  | some e => .error e
  | none => countWhereId db.departments v

/-- The jobs existence check, subject to the failure oracle. -/
def fetchCountJob (o : Oracle) (db : DB) (v : Value) : Except StoreErr Nat :=
  match o.jobFails v with
  | some e => .error e
  | none => countWhereId db.jobs v

/-- One store operation observable in the trace of a call. -/
inductive DbOp where
  | beginTx
  | commitTx
  | rollbackTx
  | countDep (v : Value)
  | countJob (v : Value)
  | insertRow (table : String) (vals : List Value)
deriving DecidableEq

/-- Whether a trace operation is an insert. -/
def isInsertOp : DbOp → Bool
  | .insertRow _ _ => true
  | _ => false

/-- The per-record body of the classification loop in `insert_data`:
structural check, then for `hired_employees` the timestamp parse (with the
in-place mutation of the record on success) and the two existence checks.
Returns the store operations performed and either an uncaught exception or
the classification tag (`true` = valid) with the record as classified. -/
def recOutcome (o : Oracle) (db : DB) (table : String) (req : List String) (rec : Rec) :
    List DbOp × Except PipeErr (Bool × Rec) :=
  if structOk req rec then
    if table = "hired_employees" then
      match recFind rec "hire_datetime" with
      | some (.str s) =>
        (match pyFromIso (replaceZ s) with
         | none => ([], .ok (false, rec))
         | some d =>
           let rec2 := recSet rec "hire_datetime" (.dt d)
           let depV := (recFind rec2 "department_id").getD .null
           match fetchCountDep o db depV with
           | .error e => ([.countDep depV], .error (.store e))
           | .ok dep =>
             let jobV := (recFind rec2 "job_id").getD .null
             match fetchCountJob o db jobV with
             | .error e => ([.countDep depV, .countJob jobV], .error (.store e))
             | .ok job =>
               if dep == 0 || job == 0 then
                 ([.countDep depV, .countJob jobV], .ok (false, rec2))
               else
                 ([.countDep depV, .countJob jobV], .ok (true, rec2)))
      | _ => ([], .error .typeError)
    else ([], .ok (true, rec))
  else ([], .ok (false, rec))

/-- The classification loop of `insert_data`: processes records in order,
appending to `valid_records` / `failed_records`; an uncaught exception
aborts the loop. -/
def classifyLoop (o : Oracle) (db : DB) (table : String) (req : List String) :
    List Rec → List Rec → List Rec → List DbOp × Except PipeErr (List Rec × List Rec)
  | [], vacc, racc => ([], .ok (vacc, racc))
  | r :: rest, vacc, racc =>
    match recOutcome o db table req r with
    | (ops, .error e) => (ops, .error e)
    | (ops, .ok (true, r2)) =>
      let next := classifyLoop o db table req rest (vacc ++ [r2]) racc
      (ops ++ next.1, next.2)
    | (ops, .ok (false, r2)) =>
      let next := classifyLoop o db table req rest vacc (racc ++ [r2])
      (ops ++ next.1, next.2)

/-- The insert parameters: `tuple(record[field] for field in required_fields)`. -/
def rowVals (req : List String) (r : Rec) : List Value :=
  req.map (fun f => (recFind r f).getD .null)

/-- The commit loop of `insert_data`: one insert per valid record, in order;
a failing insert raises, aborting the loop. -/
def commitLoop (o : Oracle) (table : String) (req : List String) :
    DB → List Rec → List DbOp × Except PipeErr DB
  | db, [] => ([], .ok db)
  | db, r :: rest =>
    let vals := rowVals req r
    match o.insFails table vals with
    | some e => ([.insertRow table vals], .error (.store e))
    | none =>
      let next := commitLoop o table req (insertInto db table vals).1 rest
      (DbOp.insertRow table vals :: next.1, next.2)

/-- The response body of a successful call. -/
structure InsertResponse where
  success : Bool
  message : String
  failed_records : List Rec
deriving DecidableEq

/-- What the handler returns to the HTTP layer: a response, or an
`HTTPException` with a status code and detail string. -/
inductive HandlerOut where
  | resp (r : InsertResponse)
  | httpError (status : Nat) (detail : String)
deriving DecidableEq

/-- Diagnostic text of an uncaught exception, as wrapped by the source's
`except Exception` handler. -/
def pipeErrDetail : PipeErr → String
  | .typeError => "Internal Server Error: AttributeError"
  | .store .unavailable => "Internal Server Error: ConnectionError"
  | .store .constraint => "Internal Server Error: IntegrityError"
  | .store .coercion => "Internal Server Error: DataError"

/-- The detail the caller receives for an unknown table name: the
`HTTPException(400, "Invalid table name")` raised by the source is caught by
its own `except Exception` block and re-raised with status 500, so its text
appears inside the server-error wrapper. -/
def invalidTableDetail : String :=
  "Internal Server Error: 400: Invalid table name"

/-- The message of the response: `f"{len(valid_records)} records inserted
into {request.table}"`. -/
def countMsg (n : Nat) (table : String) : String :=
  toString n ++ " records inserted into " ++ table

/-- The `insert_data` handler: schema lookup, one transaction around the
classification loop and the guarded commit loop, response assembly, and the
broad exception handler. Returns the handler output, the database after the
call (rolled back to the input database on any uncaught failure), and the
trace of store operations. -/
def insert_data (o : Oracle) (db0 : DB) (table : String) (data : List Rec) :
    HandlerOut × DB × List DbOp :=
  match TABLE_SCHEMAS table with
  | none => (.httpError 500 invalidTableDetail, db0, [])
  | some req =>
    match classifyLoop o db0 table req data [] [] with
    | (ops, .error e) =>
      (.httpError 500 (pipeErrDetail e), db0, DbOp.beginTx :: (ops ++ [DbOp.rollbackTx]))
    | (ops, .ok (valid, rejected)) =>
      if valid.isEmpty then
        (.resp ⟨false, countMsg valid.length table, rejected⟩, db0,
          DbOp.beginTx :: (ops ++ [DbOp.commitTx]))
      else
        match commitLoop o table req db0 valid with
        | (ops2, .error e) =>
          (.httpError 500 (pipeErrDetail e), db0,
            DbOp.beginTx :: (ops ++ ops2 ++ [DbOp.rollbackTx]))
        | (ops2, .ok db1) =>
          (.resp ⟨true, countMsg valid.length table, rejected⟩, db1,
            DbOp.beginTx :: (ops ++ ops2 ++ [DbOp.commitTx]))

/-- Functional form of the classification loop: same operations and result
as `classifyLoop` started with empty accumulators, structured by recursion
on the input list (proved below in `classifyLoop_eq_spec`). -/
def classifySpec (o : Oracle) (db : DB) (t : String) (req : List String) :
    List Rec → List DbOp × Except PipeErr (List Rec × List Rec)
  | [] => ([], .ok ([], []))
  | r :: rest =>
    match recOutcome o db t req r with
    | (ops, .error e) => (ops, .error e)
    | (ops, .ok (b, r2)) =>
      match classifySpec o db t req rest with
      | (ops2, .error e) => (ops ++ ops2, .error e)
      | (ops2, .ok (v, rj)) =>
        (ops ++ ops2, .ok (if b then r2 :: v else v, if b then rj else r2 :: rj))

/-! ### Concrete instances used in the witnesses and counterexamples -/

/-- Oracle under which every store operation succeeds. -/
def oracleNone : Oracle := ⟨fun _ => none, fun _ => none, fun _ _ => none⟩

/-- Oracle under which every insert fails with a constraint violation. -/
def oracleInsFail : Oracle := ⟨fun _ => none, fun _ => none, fun _ _ => some StoreErr.constraint⟩

/-- Oracle under which the departments existence check finds the store
unavailable. -/
def oracleDepFail : Oracle := ⟨fun _ => some StoreErr.unavailable, fun _ => none, fun _ _ => none⟩

/-- Oracle under which the jobs existence check finds the store
unavailable. -/
def oracleJobFail : Oracle := ⟨fun _ => none, fun _ => some StoreErr.unavailable, fun _ _ => none⟩

/-- Oracle under which every insert finds the store unavailable. -/
def oracleInsUnavail : Oracle :=
  ⟨fun _ => none, fun _ => none, fun _ _ => some StoreErr.unavailable⟩

/-- An empty database. -/
def dbEmpty : DB := ⟨[], [], [], 1⟩

/-- A database holding department 1 and job 1. -/
def dbRefs : DB := ⟨[(1, [Value.str "Engineering"])], [(1, [Value.str "Engineer"])], [], 2⟩

/-- The required fields of the hire-events table. -/
def hiredReq : List String := ["name", "hire_datetime", "department_id", "job_id"]

/-- A well-formed department record. -/
def recDept : Rec := [("department", Value.str "Engineering")]

/-- A department record whose required field key is absent. -/
def recNoField : Rec := [("dept", Value.str "X")]

/-- A department record whose required field key is bound to null. -/
def recNullDept : Rec := [("department", Value.null)]

/-- A structurally complete hire-event record with a trailing-Z timestamp. -/
def recHire : Rec :=
  [("name", Value.str "A"), ("hire_datetime", Value.str "2021-05-15T14:30:00Z"),
   ("department_id", Value.int 1), ("job_id", Value.int 1)]

/-- The parse of `2021-05-15T14:30:00+00:00`. -/
def dtParsed : PyDateTime := ⟨2021, 5, 15, 14, 30, 0, 0, some 0⟩

/-! ### Helper lemmas about records -/

theorem recHasKey_recSet_of (r : Rec) (k f : String) (v : Value)
    (h : recHasKey r f = true) : recHasKey (recSet r k v) f = true := by
  induction r with
  | nil => simp [recHasKey] at h
  | cons p rest ih =>
    obtain ⟨k1, v1⟩ := p
    by_cases hk : (k1 == k) = true
    · have hrw : recSet ((k1, v1) :: rest) k v = (k1, v) :: rest := by
        simp [recSet, hk]
      rw [hrw]
      simp only [recHasKey, List.any_cons] at h ⊢
      exact h
    · have hrw : recSet ((k1, v1) :: rest) k v = (k1, v1) :: recSet rest k v := by
        simp [recSet, hk]
      rw [hrw]
      simp only [recHasKey, List.any_cons] at h ⊢
      cases hkf : (k1 == f) with
      | true => simp
      | false =>
        rw [hkf] at h
        simp only [Bool.false_or] at h
        simp only [Bool.false_or]
        exact ih h

theorem structOk_recSet (req : List String) (r : Rec) (k : String) (v : Value)
    (h : structOk req r = true) : structOk req (recSet r k v) = true := by
  simp only [structOk, List.all_eq_true] at *
  exact fun f hf => recHasKey_recSet_of r k f v (h f hf)

theorem recFind_recSet_self (r : Rec) (k : String) (v : Value) :
    recFind (recSet r k v) k = some v := by
  induction r with
  | nil => simp [recSet, recFind]
  | cons p rest ih =>
    obtain ⟨k1, v1⟩ := p
    by_cases hk : k1 == k
    · simp [recSet, hk, recFind, List.find?]
    · simp only [recSet, hk, if_false, Bool.false_eq_true]
      simpa [recFind, List.find?, hk] using ih

theorem recFind_recSet_ne (r : Rec) (k f : String) (v : Value) (h : k ≠ f) :
    recFind (recSet r k v) f = recFind r f := by
  induction r with
  | nil =>
    have hkf : (k == f) = false := beq_eq_false_iff_ne.mpr h
    simp [recSet, recFind, List.find?, hkf]
  | cons p rest ih =>
    obtain ⟨k1, v1⟩ := p
    by_cases hk : (k1 == k) = true
    · have hk1 : k1 = k := beq_iff_eq.mp hk
      have hkf : (k1 == f) = false := beq_eq_false_iff_ne.mpr (by rw [hk1]; exact h)
      simp [recSet, hk, recFind, List.find?, hkf]
    · by_cases hf : (k1 == f) = true
      · simp [recSet, hk, recFind, List.find?, hf]
      · simpa [recSet, hk, recFind, List.find?, hf] using ih

/-! ### Per-record outcome characterizations -/

theorem recOutcome_structFail (o : Oracle) (db : DB) (table : String) (req : List String)
    (rec : Rec) (h : structOk req rec = false) :
    recOutcome o db table req rec = ([], Except.ok (false, rec)) := by
  simp [recOutcome, h]

theorem recOutcome_notHired (o : Oracle) (db : DB) (table : String) (req : List String)
    (rec : Rec) (hs : structOk req rec = true) (ht : table ≠ "hired_employees") :
    recOutcome o db table req rec = ([], Except.ok (true, rec)) := by
  simp [recOutcome, hs, ht]

theorem recOutcome_parseFail (o : Oracle) (db : DB) (req : List String) (rec : Rec)
    (s : String) (hs : structOk req rec = true)
    (hv : recFind rec "hire_datetime" = some (Value.str s))
    (hp : pyFromIso (replaceZ s) = none) :
    recOutcome o db "hired_employees" req rec = ([], Except.ok (false, rec)) := by
  simp [recOutcome, hs, hv, hp]

theorem recOutcome_depFail (o : Oracle) (db : DB) (req : List String) (rec : Rec)
    (s : String) (d : PyDateTime) (e : StoreErr)
    (hs : structOk req rec = true)
    (hv : recFind rec "hire_datetime" = some (Value.str s))
    (hp : pyFromIso (replaceZ s) = some d)
    (hdep : o.depFails ((recFind rec "department_id").getD Value.null) = some e) :
    recOutcome o db "hired_employees" req rec =
      ([DbOp.countDep ((recFind rec "department_id").getD Value.null)],
       Except.error (PipeErr.store e)) := by
  have hne : ("hire_datetime" : String) ≠ "department_id" := by decide
  simp [recOutcome, hs, hv, hp, fetchCountDep, recFind_recSet_ne _ _ _ _ hne, hdep]

theorem recOutcome_checked (o : Oracle) (db : DB) (req : List String) (rec : Rec)
    (s : String) (d : PyDateTime) (di ji : Int)
    (hs : structOk req rec = true)
    (hv : recFind rec "hire_datetime" = some (Value.str s))
    (hp : pyFromIso (replaceZ s) = some d)
    (hdi : recFind rec "department_id" = some (Value.int di))
    (hji : recFind rec "job_id" = some (Value.int ji))
    (hdo : o.depFails (Value.int di) = none)
    (hjo : o.jobFails (Value.int ji) = none) :
    recOutcome o db "hired_employees" req rec =
      ([DbOp.countDep (Value.int di), DbOp.countJob (Value.int ji)],
       Except.ok (!(db.departments.countP (fun row => row.1 == di) == 0 ||
                    db.jobs.countP (fun row => row.1 == ji) == 0),
                  recSet rec "hire_datetime" (Value.dt d))) := by
  have hneD : ("hire_datetime" : String) ≠ "department_id" := by decide
  have hneJ : ("hire_datetime" : String) ≠ "job_id" := by decide
  simp only [recOutcome, hs, if_true, if_pos rfl, hv, hp,
    recFind_recSet_ne _ _ _ _ hneD, recFind_recSet_ne _ _ _ _ hneJ, hdi, hji,
    Option.getD_some, fetchCountDep, fetchCountJob, hdo, hjo, countWhereId]
  cases hc : (db.departments.countP (fun row => row.1 == di) == 0 ||
      db.jobs.countP (fun row => row.1 == ji) == 0) with
  | true => simp [hc]
  | false => simp [hc]

theorem recOutcome_ok_true_structOk (o : Oracle) (db : DB) (table : String)
    (req : List String) (rec r2 : Rec)
    (h : (recOutcome o db table req rec).2 = Except.ok (true, r2)) :
    structOk req r2 = true := by
  by_cases hs : structOk req rec = true
  · by_cases ht : table = "hired_employees"
    · subst ht
      rcases hv : recFind rec "hire_datetime" with _ | v
      · simp [recOutcome, hs, hv] at h
      · rcases v with s | n | d | _
        · rcases hp : pyFromIso (replaceZ s) with _ | d
          · simp [recOutcome, hs, hv, hp] at h
          · rcases hd : fetchCountDep o db
                ((recFind (recSet rec "hire_datetime" (Value.dt d)) "department_id").getD
                  Value.null) with e | dep
            · simp [recOutcome, hs, hv, hp, hd] at h
            · rcases hj : fetchCountJob o db
                  ((recFind (recSet rec "hire_datetime" (Value.dt d)) "job_id").getD
                    Value.null) with e | job
              · simp [recOutcome, hs, hv, hp, hd, hj] at h
              · cases hc : (dep == 0 || job == 0) with
                | true => simp [recOutcome, hs, hv, hp, hd, hj, hc] at h
                | false =>
                  simp [recOutcome, hs, hv, hp, hd, hj, hc] at h
                  subst h
                  exact structOk_recSet req rec "hire_datetime" (Value.dt d) hs
        · simp [recOutcome, hs, hv] at h
        · simp [recOutcome, hs, hv] at h
        · simp [recOutcome, hs, hv] at h
    · have heq := recOutcome_notHired o db table req rec hs ht
      rw [heq] at h
      simp only [Except.ok.injEq, Prod.mk.injEq, true_and] at h
      rw [← h]
      exact hs
  · have hsf : structOk req rec = false := by
      cases hx : structOk req rec
      · rfl
      · exact absurd hx hs
    rw [recOutcome_structFail o db table req rec hsf] at h
    simp at h

theorem recOutcome_ops_no_insert (o : Oracle) (db : DB) (table : String)
    (req : List String) (rec : Rec) :
    ∀ op ∈ (recOutcome o db table req rec).1, isInsertOp op = false := by
  intro op hop
  by_cases hs : structOk req rec = true
  · by_cases ht : table = "hired_employees"
    · subst ht
      rcases hv : recFind rec "hire_datetime" with _ | v
      · simp [recOutcome, hs, hv] at hop
      · rcases v with s | n | d | _
        · rcases hp : pyFromIso (replaceZ s) with _ | d
          · simp [recOutcome, hs, hv, hp] at hop
          · rcases hd : fetchCountDep o db
                ((recFind (recSet rec "hire_datetime" (Value.dt d)) "department_id").getD
                  Value.null) with e | dep
            · simp [recOutcome, hs, hv, hp, hd] at hop
              simp [hop, isInsertOp]
            · rcases hj : fetchCountJob o db
                  ((recFind (recSet rec "hire_datetime" (Value.dt d)) "job_id").getD
                    Value.null) with e | job
              · simp [recOutcome, hs, hv, hp, hd, hj] at hop
                rcases hop with h1 | h1 <;> simp [h1, isInsertOp]
              · cases hc : (dep == 0 || job == 0) with
                | true =>
                  simp [recOutcome, hs, hv, hp, hd, hj, hc] at hop
                  rcases hop with h1 | h1 <;> simp [h1, isInsertOp]
                | false =>
                  simp [recOutcome, hs, hv, hp, hd, hj, hc] at hop
                  rcases hop with h1 | h1 <;> simp [h1, isInsertOp]
        · simp [recOutcome, hs, hv] at hop
        · simp [recOutcome, hs, hv] at hop
        · simp [recOutcome, hs, hv] at hop
    · simp [recOutcome_notHired o db table req rec hs ht] at hop
  · have hsf : structOk req rec = false := by
      cases hx : structOk req rec
      · rfl
      · exact absurd hx hs
    simp [recOutcome_structFail o db table req rec hsf] at hop

/-! ### A cons-structured characterization of the classification loop -/

theorem classifyLoop_eq_spec (o : Oracle) (db : DB) (t : String) (req : List String)
    (data : List Rec) : ∀ (vacc racc : List Rec),
    classifyLoop o db t req data vacc racc =
      ((classifySpec o db t req data).1,
       match (classifySpec o db t req data).2 with
       | .error e => .error e
       | .ok (v, rj) => .ok (vacc ++ v, racc ++ rj)) := by
  induction data with
  | nil => intro vacc racc; simp [classifyLoop, classifySpec]
  | cons r rest ih =>
    intro vacc racc
    rcases hro : recOutcome o db t req r with ⟨ops, res⟩
    rcases res with e | ⟨b, r2⟩
    · simp [classifyLoop, classifySpec, hro]
    · cases b with
      | true =>
        simp only [classifyLoop, classifySpec, hro]
        rw [ih (vacc ++ [r2]) racc]
        rcases hsp : classifySpec o db t req rest with ⟨ops2, res2⟩
        rcases res2 with e2 | ⟨v, rj⟩
        · simp
        · simp [List.append_assoc]
      | false =>
        simp only [classifyLoop, classifySpec, hro]
        rw [ih vacc (racc ++ [r2])]
        rcases hsp : classifySpec o db t req rest with ⟨ops2, res2⟩
        rcases res2 with e2 | ⟨v, rj⟩
        · simp
        · simp [List.append_assoc]

theorem classifyLoop_ok_spec (o : Oracle) (db : DB) (t : String) (req : List String)
    (data valid rejected : List Rec) (ops : List DbOp)
    (h : classifyLoop o db t req data [] [] = (ops, Except.ok (valid, rejected))) :
    classifySpec o db t req data = (ops, Except.ok (valid, rejected)) := by
  rw [classifyLoop_eq_spec o db t req data [] []] at h
  rcases hsp : classifySpec o db t req data with ⟨ops2, res2⟩
  rw [hsp] at h
  rcases res2 with e2 | ⟨v, rj⟩
  · simp at h
  · simp only [List.nil_append, Prod.mk.injEq, Except.ok.injEq] at h
    rw [h.1, h.2.1, h.2.2]

theorem classifyLoop_error_spec (o : Oracle) (db : DB) (t : String) (req : List String)
    (data : List Rec) (ops : List DbOp) (e : PipeErr)
    (h : classifySpec o db t req data = (ops, Except.error e)) :
    classifyLoop o db t req data [] [] = (ops, Except.error e) := by
  rw [classifyLoop_eq_spec o db t req data [] [], h]

theorem length_filter_tag (l : List (Bool × Rec)) :
    (l.filter (fun tag => tag.1)).length + (l.filter (fun tag => !tag.1)).length = l.length := by
  induction l with
  | nil => rfl
  | cons t rest ih =>
    cases ht : t.1 <;> simp [List.filter_cons, ht] <;> omega

theorem classifySpec_ok_filter (o : Oracle) (db : DB) (t : String) (req : List String) :
    ∀ (data valid rejected : List Rec) (ops : List DbOp),
      classifySpec o db t req data = (ops, Except.ok (valid, rejected)) →
      ∃ outs : List (Bool × Rec),
        List.Forall₂ (fun r tag => (recOutcome o db t req r).2 = Except.ok tag) data outs ∧
        valid = (outs.filter (fun tag => tag.1)).map Prod.snd ∧
        rejected = (outs.filter (fun tag => !tag.1)).map Prod.snd := by
  intro data
  induction data with
  | nil =>
    intro valid rejected ops h
    simp only [classifySpec, Prod.mk.injEq, Except.ok.injEq] at h
    refine ⟨[], List.Forall₂.nil, ?_, ?_⟩
    · rw [← h.2.1]; rfl
    · rw [← h.2.2]; rfl
  | cons r rest ih =>
    intro valid rejected ops h
    rcases hro : recOutcome o db t req r with ⟨ops1, res1⟩
    rcases res1 with e | ⟨b, r2⟩
    · simp [classifySpec, hro] at h
    · rcases hsp : classifySpec o db t req rest with ⟨ops2, res2⟩
      rcases res2 with e2 | ⟨v, rj⟩
      · simp [classifySpec, hro, hsp] at h
      · simp only [classifySpec, hro, hsp, Prod.mk.injEq, Except.ok.injEq] at h
        obtain ⟨outs, hfa, hv, hrj⟩ := ih v rj ops2 hsp
        refine ⟨(b, r2) :: outs, List.Forall₂.cons (by rw [hro]) hfa, ?_, ?_⟩
        · rw [← h.2.1]
          cases b <;> simp [List.filter_cons, hv]
        · rw [← h.2.2]
          cases b <;> simp [List.filter_cons, hrj]

theorem classifySpec_valid_structOk (o : Oracle) (db : DB) (t : String) (req : List String) :
    ∀ (data valid rejected : List Rec) (ops : List DbOp),
      classifySpec o db t req data = (ops, Except.ok (valid, rejected)) →
      ∀ x ∈ valid, structOk req x = true := by
  intro data
  induction data with
  | nil =>
    intro valid rejected ops h
    simp only [classifySpec, Prod.mk.injEq, Except.ok.injEq] at h
    rw [← h.2.1]
    intro x hx
    simp at hx
  | cons r rest ih =>
    intro valid rejected ops h
    rcases hro : recOutcome o db t req r with ⟨ops1, res1⟩
    rcases res1 with e | ⟨b, r2⟩
    · simp [classifySpec, hro] at h
    · rcases hsp : classifySpec o db t req rest with ⟨ops2, res2⟩
      rcases res2 with e2 | ⟨v, rj⟩
      · simp [classifySpec, hro, hsp] at h
      · simp only [classifySpec, hro, hsp, Prod.mk.injEq, Except.ok.injEq] at h
        intro x hx
        rw [← h.2.1] at hx
        cases b with
        | true =>
          rcases List.mem_cons.mp hx with hx1 | hx2
          · subst hx1
            exact recOutcome_ok_true_structOk o db t req r x (by rw [hro])
          · exact ih v rj ops2 hsp x hx2
        | false =>
          exact ih v rj ops2 hsp x hx

theorem classifySpec_structFail_mem (o : Oracle) (db : DB) (t : String) (req : List String) :
    ∀ (data valid rejected : List Rec) (ops : List DbOp) (rec : Rec),
      classifySpec o db t req data = (ops, Except.ok (valid, rejected)) →
      rec ∈ data → structOk req rec = false →
      rec ∈ rejected := by
  intro data
  induction data with
  | nil =>
    intro valid rejected ops rec h hmem hmiss
    simp at hmem
  | cons r rest ih =>
    intro valid rejected ops rec h hmem hmiss
    rcases hro : recOutcome o db t req r with ⟨ops1, res1⟩
    rcases res1 with e | ⟨b, r2⟩
    · simp [classifySpec, hro] at h
    · rcases hsp : classifySpec o db t req rest with ⟨ops2, res2⟩
      rcases res2 with e2 | ⟨v, rj⟩
      · simp [classifySpec, hro, hsp] at h
      · simp only [classifySpec, hro, hsp, Prod.mk.injEq, Except.ok.injEq] at h
        rcases List.mem_cons.mp hmem with h1 | h2
        · subst h1
          have hout := recOutcome_structFail o db t req rec hmiss
          rw [hout] at hro
          simp only [Prod.mk.injEq, Except.ok.injEq] at hro
          rw [← h.2.2, ← hro.2.1, ← hro.2.2]
          simp
        · have hmem2 := ih v rj ops2 rec hsp h2 hmiss
          rw [← h.2.2]
          cases b with
          | true => exact hmem2
          | false => exact List.mem_cons_of_mem r2 hmem2

theorem classifySpec_ops_no_insert (o : Oracle) (db : DB) (t : String) (req : List String) :
    ∀ (data : List Rec) (ops : List DbOp) (res : Except PipeErr (List Rec × List Rec)),
      classifySpec o db t req data = (ops, res) →
      ∀ op ∈ ops, isInsertOp op = false := by
  intro data
  induction data with
  | nil =>
    intro ops res h op hop
    simp only [classifySpec, Prod.mk.injEq] at h
    rw [← h.1] at hop
    simp at hop
  | cons r rest ih =>
    intro ops res h op hop
    rcases hro : recOutcome o db t req r with ⟨ops1, res1⟩
    have hops1 : ∀ op1 ∈ ops1, isInsertOp op1 = false := by
      intro op1 hop1
      have hno := recOutcome_ops_no_insert o db t req r op1
      rw [hro] at hno
      exact hno hop1
    rcases res1 with e | ⟨b, r2⟩
    · simp only [classifySpec, hro, Prod.mk.injEq] at h
      rw [← h.1] at hop
      exact hops1 op hop
    · rcases hsp : classifySpec o db t req rest with ⟨ops2, res2⟩
      have hops2 := ih ops2 res2 hsp
      rcases res2 with e2 | ⟨v, rj⟩
      · simp only [classifySpec, hro, hsp, Prod.mk.injEq] at h
        rw [← h.1] at hop
        rcases List.mem_append.mp hop with h1 | h2
        · exact hops1 op h1
        · exact hops2 op h2
      · simp only [classifySpec, hro, hsp, Prod.mk.injEq] at h
        rw [← h.1] at hop
        rcases List.mem_append.mp hop with h1 | h2
        · exact hops1 op h1
        · exact hops2 op h2

theorem classifySpec_append_error (o : Oracle) (db : DB) (t : String) (req : List String) :
    ∀ (xs ys : List Rec) (ops1 opsy : List DbOp) (v1 rj1 : List Rec) (ey : PipeErr),
      classifySpec o db t req xs = (ops1, Except.ok (v1, rj1)) →
      classifySpec o db t req ys = (opsy, Except.error ey) →
      classifySpec o db t req (xs ++ ys) = (ops1 ++ opsy, Except.error ey) := by
  intro xs
  induction xs with
  | nil =>
    intro ys ops1 opsy v1 rj1 ey h hy
    simp only [classifySpec, Prod.mk.injEq, Except.ok.injEq] at h
    rw [← h.1]
    simpa using hy
  | cons r rest ih =>
    intro ys ops1 opsy v1 rj1 ey h hy
    rcases hro : recOutcome o db t req r with ⟨opsr, resr⟩
    rcases resr with e | ⟨b, r2⟩
    · simp [classifySpec, hro] at h
    · rcases hsp : classifySpec o db t req rest with ⟨ops2, res2⟩
      rcases res2 with e2 | ⟨v, rj⟩
      · simp [classifySpec, hro, hsp] at h
      · simp only [classifySpec, hro, hsp, Prod.mk.injEq, Except.ok.injEq] at h
        have hrec := ih ys ops2 opsy v rj ey hsp hy
        simp only [List.cons_append, classifySpec, List.append_eq, hro]
        rw [hrec, ← h.1]
        simp [List.append_assoc]

/-! ### The trailing Z designator -/

theorem replaceZList_no_z (t : List Char) (h : 'Z' ∉ t) :
    replaceZList (t ++ ([ 'Z' ] : List Char)) =
      t ++ ([ '+', '0', '0', ':', '0', '0' ] : List Char) := by
  induction t with
  | nil => rfl
  | cons c cs ih =>
    have hc : ¬(c = 'Z') := fun hcz => h (by rw [hcz]; exact List.mem_cons_self 'Z' cs)
    have hcs : 'Z' ∉ cs := fun hm => h (List.mem_cons_of_mem c hm)
    simp [replaceZList, List.cons_append, hc, ih hcs]

theorem replaceZ_trailing (t : String) (h : 'Z' ∉ t.data) :
    replaceZ (t ++ "Z") = t ++ "+00:00" := by
  obtain ⟨lt⟩ := t
  exact congrArg String.mk (replaceZList_no_z lt h)

/-! ### Claim theorems -/

/-- C4: for an unrecognized table name the handler performs no store
operation (empty trace, database unchanged), but the `HTTPException(400)`
the source raises is caught by its own `except Exception` block and
re-raised as HTTP 500, so the caller receives a server error rather than
the claimed client error. -/
theorem c4_unknown_table_surfaced :
    insert_data oracleNone dbRefs "unknown_table" [recDept] =
      (HandlerOut.httpError 500 invalidTableDetail, dbRefs, []) := rfl

/-- C3 counterexample: a structurally complete hire event with a parseable
timestamp whose department reference does not exist is rejected with its
hire-timestamp field already replaced by the parsed instant — the surfaced
rejected entry is not the original pre-parse record. -/
theorem c3_rejected_not_original :
    (insert_data oracleNone dbEmpty "hired_employees" [recHire]).1 =
      HandlerOut.resp ⟨false, countMsg 0 "hired_employees",
        [recSet recHire "hire_datetime" (Value.dt dtParsed)]⟩ ∧
    recSet recHire "hire_datetime" (Value.dt dtParsed) ≠ recHire ∧
    recFind (recSet recHire "hire_datetime" (Value.dt dtParsed)) "hire_datetime" ≠
      some (Value.str "2021-05-15T14:30:00Z") := by
  refine ⟨rfl, by decide, by decide⟩

/-- C3 amended: records rejected by the structural check or by the
timestamp parse are surfaced in their original pre-parse form, but a
hire-event record rejected by the referential check is surfaced with its
hire-timestamp field already replaced by the parsed instant (the source
mutates the record in place before the existence checks). -/
theorem c3_surfaced_forms (o : Oracle) (db : DB) (table : String) (req : List String)
    (rec : Rec) :
    (structOk req rec = false → recOutcome o db table req rec = ([], Except.ok (false, rec))) ∧
    (∀ s : String, structOk req rec = true →
      recFind rec "hire_datetime" = some (Value.str s) →
      pyFromIso (replaceZ s) = none →
      recOutcome o db "hired_employees" req rec = ([], Except.ok (false, rec))) ∧
    (∀ (s : String) (d : PyDateTime) (di ji : Int), structOk req rec = true →
      recFind rec "hire_datetime" = some (Value.str s) →
      pyFromIso (replaceZ s) = some d →
      recFind rec "department_id" = some (Value.int di) →
      recFind rec "job_id" = some (Value.int ji) →
      o.depFails (Value.int di) = none → o.jobFails (Value.int ji) = none →
      (db.departments.countP (fun row => row.1 == di) = 0 ∨
       db.jobs.countP (fun row => row.1 == ji) = 0) →
      recOutcome o db "hired_employees" req rec =
        ([DbOp.countDep (Value.int di), DbOp.countJob (Value.int ji)],
         Except.ok (false, recSet rec "hire_datetime" (Value.dt d)))) := by
  refine ⟨?_, ?_, ?_⟩
  · intro hsf
    exact recOutcome_structFail o db table req rec hsf
  · intro s hs hv hp
    exact recOutcome_parseFail o db req rec s hs hv hp
  · intro s d di ji hs hv hp hdi hji hdo hjo hzero
    have hc : (db.departments.countP (fun row => row.1 == di) == 0 ||
        db.jobs.countP (fun row => row.1 == ji) == 0) = true := by
      rcases hzero with hz | hz <;> simp [hz]
    rw [recOutcome_checked o db req rec s d di ji hs hv hp hdi hji hdo hjo]
    simp [hc]

/-- C3 amended, witnessed at a concrete referentially-rejected record. -/
theorem c3_surfaced_forms_witness :
    recOutcome oracleNone dbEmpty "hired_employees" hiredReq recHire =
      ([DbOp.countDep (Value.int 1), DbOp.countJob (Value.int 1)],
       Except.ok (false, recSet recHire "hire_datetime" (Value.dt dtParsed))) :=
  (c3_surfaced_forms oracleNone dbEmpty "hired_employees" hiredReq recHire).2.2
    "2021-05-15T14:30:00Z" dtParsed 1 1 rfl rfl rfl rfl rfl rfl rfl (Or.inl rfl)

/-- C10: the structural stage checks only the presence of the required
field keys, never the bound values: any record whose key set covers the
required fields passes it (and, for the two entities without a timestamp
parse, goes straight to the valid side), so null or wrong-typed values
are only caught by later stages. -/
theorem c10_structural_keys_only (req : List String) (rec : Rec)
    (h : ∀ f ∈ req, recHasKey rec f = true) :
    structOk req rec = true ∧
    (∀ rec2 : Rec, (∀ f : String, recHasKey rec2 f = recHasKey rec f) →
      structOk req rec2 = true) ∧
    (∀ (o : Oracle) (db : DB) (table : String), table ≠ "hired_employees" →
      recOutcome o db table req rec = ([], Except.ok (true, rec))) := by
  have hs : structOk req rec = true := List.all_eq_true.mpr h
  refine ⟨hs, ?_, ?_⟩
  · intro rec2 hkeys
    exact List.all_eq_true.mpr (fun f hf => by rw [hkeys f]; exact h f hf)
  · intro o db table ht
    exact recOutcome_notHired o db table req rec hs ht

/-- C10, witnessed at a record binding the required key to null. -/
theorem c10_structural_keys_only_witness :
    structOk ["department"] recNullDept = true ∧
    recOutcome oracleNone dbEmpty "departments" ["department"] recNullDept =
      ([], Except.ok (true, recNullDept)) :=
  ⟨(c10_structural_keys_only ["department"] recNullDept (by decide)).1,
   (c10_structural_keys_only ["department"] recNullDept (by decide)).2.2 oracleNone dbEmpty
     "departments" (by decide)⟩

/-- C7: a record missing a required field key is rejected verbatim: it
ends up in the rejected list exactly as received, never in the valid list,
and its classification performs no store operation (so it reaches neither
the referential checks nor the commit). -/
theorem c7_missing_field_rejected (o : Oracle) (db : DB) (table : String) (req : List String)
    (data valid rejected : List Rec) (ops : List DbOp) (rec : Rec)
    (hreq : TABLE_SCHEMAS table = some req)
    (hrun : classifyLoop o db table req data [] [] = (ops, Except.ok (valid, rejected)))
    (hmem : rec ∈ data)
    (hmiss : ∃ f ∈ req, recHasKey rec f = false) :
    rec ∈ rejected ∧ rec ∉ valid ∧
    recOutcome o db table req rec = ([], Except.ok (false, rec)) := by
  obtain ⟨f, hf, hk⟩ := hmiss
  have hsf : structOk req rec = false := by
    cases hx : structOk req rec
    · rfl
    · have hkt := List.all_eq_true.mp hx f hf
      rw [hk] at hkt
      exact Bool.noConfusion hkt
  have hspec := classifyLoop_ok_spec o db table req data valid rejected ops hrun
  refine ⟨classifySpec_structFail_mem o db table req data valid rejected ops rec hspec
    hmem hsf, ?_, recOutcome_structFail o db table req rec hsf⟩
  intro hvalmem
  have hst := classifySpec_valid_structOk o db table req data valid rejected ops hspec
    rec hvalmem
  rw [hsf] at hst
  exact Bool.noConfusion hst

/-- C7, witnessed at a record lacking the `department` key. -/
theorem c7_missing_field_rejected_witness :
    recNoField ∈ ([recNoField] : List Rec) ∧ recNoField ∉ ([] : List Rec) ∧
    recOutcome oracleNone dbEmpty "departments" ["department"] recNoField =
      ([], Except.ok (false, recNoField)) :=
  c7_missing_field_rejected oracleNone dbEmpty "departments" ["department"]
    [recNoField] [] [recNoField] [] recNoField rfl rfl (by decide)
    ⟨"department", by decide, by decide⟩

/-- C5: for a structurally complete hire event whose hire-timestamp value
is a string, the pipeline parses it as an ISO-8601 instant after turning
the trailing literal `Z` into the UTC offset `+00:00`; parse failure
rejects the record unchanged, and on success every classified form of the
record carries the parsed instant in the hire-timestamp field, which is
also the value the commit step reads for that column. -/
theorem c5_timestamp_parse (o : Oracle) (db : DB) (req : List String) (rec : Rec) (s : String)
    (hs : structOk req rec = true)
    (hv : recFind rec "hire_datetime" = some (Value.str s)) :
    (∀ t : String, s = t ++ "Z" → 'Z' ∉ t.data → replaceZ s = t ++ "+00:00") ∧
    (pyFromIso (replaceZ s) = none →
      recOutcome o db "hired_employees" req rec = ([], Except.ok (false, rec))) ∧
    (∀ (d : PyDateTime) (ops : List DbOp) (b : Bool) (r2 : Rec),
      pyFromIso (replaceZ s) = some d →
      recOutcome o db "hired_employees" req rec = (ops, Except.ok (b, r2)) →
      r2 = recSet rec "hire_datetime" (Value.dt d) ∧
      recFind r2 "hire_datetime" = some (Value.dt d) ∧
      ("hire_datetime" ∈ req → Value.dt d ∈ rowVals req r2)) := by
  refine ⟨?_, ?_, ?_⟩
  · intro t hst hz
    rw [hst]
    exact replaceZ_trailing t hz
  · intro hp
    exact recOutcome_parseFail o db req rec s hs hv hp
  · intro d ops b r2 hp hout
    have hr2 : r2 = recSet rec "hire_datetime" (Value.dt d) := by
      rcases hd : fetchCountDep o db
          ((recFind (recSet rec "hire_datetime" (Value.dt d)) "department_id").getD
            Value.null) with e | dep
      · simp [recOutcome, hs, hv, hp, hd] at hout
      · rcases hj : fetchCountJob o db
            ((recFind (recSet rec "hire_datetime" (Value.dt d)) "job_id").getD
              Value.null) with e | job
        · simp [recOutcome, hs, hv, hp, hd, hj] at hout
        · cases hc : (dep == 0 || job == 0) with
          | true =>
            simp [recOutcome, hs, hv, hp, hd, hj, hc] at hout
            exact hout.2.2.symm
          | false =>
            simp [recOutcome, hs, hv, hp, hd, hj, hc] at hout
            exact hout.2.2.symm
    refine ⟨hr2, ?_, ?_⟩
    · rw [hr2]
      exact recFind_recSet_self rec "hire_datetime" (Value.dt d)
    · intro hmem
      have hval : (recFind r2 "hire_datetime").getD Value.null = Value.dt d := by
        rw [hr2, recFind_recSet_self]
        rfl
      rw [← hval]
      exact List.mem_map_of_mem (fun f => (recFind r2 f).getD Value.null) hmem

/-- C5, witnessed at a concrete hire event with a trailing-Z timestamp. -/
theorem c5_timestamp_parse_witness :
    recFind (recSet recHire "hire_datetime" (Value.dt dtParsed)) "hire_datetime" =
      some (Value.dt dtParsed) ∧
    Value.dt dtParsed ∈ rowVals hiredReq (recSet recHire "hire_datetime" (Value.dt dtParsed)) := by
  have h := (c5_timestamp_parse oracleNone dbRefs hiredReq recHire "2021-05-15T14:30:00Z"
      rfl rfl).2.2 dtParsed
      [DbOp.countDep (Value.int 1), DbOp.countJob (Value.int 1)] true
      (recSet recHire "hire_datetime" (Value.dt dtParsed)) rfl rfl
  exact ⟨h.2.1, h.2.2 (by decide)⟩

/-- C6: for a hire event past structural validation and timestamp
parsing, with reachable store, exactly two existence checks are issued —
first the organizational-unit reference, then the job-title reference —
and the record is classified rejected exactly when either referenced
identifier matches zero rows of the corresponding table. -/
theorem c6_referential_checks (o : Oracle) (db : DB) (req : List String) (rec : Rec)
    (s : String) (d : PyDateTime) (di ji : Int)
    (hs : structOk req rec = true)
    (hv : recFind rec "hire_datetime" = some (Value.str s))
    (hp : pyFromIso (replaceZ s) = some d)
    (hdi : recFind rec "department_id" = some (Value.int di))
    (hji : recFind rec "job_id" = some (Value.int ji))
    (hdo : o.depFails (Value.int di) = none)
    (hjo : o.jobFails (Value.int ji) = none) :
    recOutcome o db "hired_employees" req rec =
      ([DbOp.countDep (Value.int di), DbOp.countJob (Value.int ji)],
       Except.ok (!(db.departments.countP (fun row => row.1 == di) == 0 ||
                    db.jobs.countP (fun row => row.1 == ji) == 0),
                  recSet rec "hire_datetime" (Value.dt d))) ∧
    ((recOutcome o db "hired_employees" req rec).2 =
        Except.ok (false, recSet rec "hire_datetime" (Value.dt d)) ↔
      (db.departments.countP (fun row => row.1 == di) = 0 ∨
       db.jobs.countP (fun row => row.1 == ji) = 0)) := by
  have hmain := recOutcome_checked o db req rec s d di ji hs hv hp hdi hji hdo hjo
  refine ⟨hmain, ?_⟩
  rw [hmain]
  constructor
  · intro heq
    simp only [Except.ok.injEq, Prod.mk.injEq] at heq
    have hb : (db.departments.countP (fun row => row.1 == di) == 0 ||
        db.jobs.countP (fun row => row.1 == ji) == 0) = true := by
      cases hc : (db.departments.countP (fun row => row.1 == di) == 0 ||
          db.jobs.countP (fun row => row.1 == ji) == 0)
      · rw [hc] at heq
        simp at heq
      · rfl
    simpa [beq_iff_eq] using hb
  · intro hz
    have hb : (db.departments.countP (fun row => row.1 == di) == 0 ||
        db.jobs.countP (fun row => row.1 == ji) == 0) = true := by
      rcases hz with hz1 | hz1 <;> simp [hz1]
    rw [hb]
    rfl

/-- C6, witnessed at a concrete hire event whose references both exist. -/
theorem c6_referential_checks_witness :
    recOutcome oracleNone dbRefs "hired_employees" hiredReq recHire =
      ([DbOp.countDep (Value.int 1), DbOp.countJob (Value.int 1)],
       Except.ok (true, recSet recHire "hire_datetime" (Value.dt dtParsed))) := by
  have h := (c6_referential_checks oracleNone dbRefs hiredReq recHire
    "2021-05-15T14:30:00Z" dtParsed 1 1 rfl rfl rfl rfl rfl rfl rfl).1
  simpa using h

/-- C1: if the classification of a call produced a non-empty valid set and
any insert fails during the commit loop, the surrounding transaction rolls
back: the database after the call equals the database before it (no record
of the valid set is persisted) and the handler surfaces an HTTP 500. -/
theorem c1_commit_atomicity (o : Oracle) (db0 : DB) (table : String) (req : List String)
    (data valid rejected : List Rec) (ops ops2 : List DbOp) (e : PipeErr)
    (hreq : TABLE_SCHEMAS table = some req)
    (hcls : classifyLoop o db0 table req data [] [] = (ops, Except.ok (valid, rejected)))
    (hne : valid ≠ [])
    (hfail : commitLoop o table req db0 valid = (ops2, Except.error e)) :
    (insert_data o db0 table data).2.1 = db0 ∧
    (insert_data o db0 table data).1 = HandlerOut.httpError 500 (pipeErrDetail e) := by
  have hemp : valid.isEmpty = false := by
    cases valid with
    | nil => exact absurd rfl hne
    | cons a l => rfl
  simp [insert_data, hreq, hcls, hemp, hfail]

/-- C1, witnessed at a call whose single insert hits a constraint
violation. -/
theorem c1_commit_atomicity_witness :
    (insert_data oracleInsFail dbEmpty "departments" [recDept]).2.1 = dbEmpty ∧
    (insert_data oracleInsFail dbEmpty "departments" [recDept]).1 =
      HandlerOut.httpError 500 (pipeErrDetail (PipeErr.store StoreErr.constraint)) :=
  c1_commit_atomicity oracleInsFail dbEmpty "departments" ["department"]
    [recDept] [recDept] [] [] [DbOp.insertRow "departments" [Value.str "Engineering"]]
    (PipeErr.store StoreErr.constraint) rfl rfl (List.cons_ne_nil recDept []) rfl

/-- C2: when the classification loop completes, it produces one tagged
outcome per input record, in input order; the valid list is the in-order
extraction of the true-tagged records and the rejected list that of the
false-tagged ones, so their lengths sum to the input length and both
preserve the input's relative order. -/
theorem c2_partition_order (o : Oracle) (db : DB) (table : String) (req : List String)
    (data valid rejected : List Rec) (ops : List DbOp)
    (hreq : TABLE_SCHEMAS table = some req)
    (hrun : classifyLoop o db table req data [] [] = (ops, Except.ok (valid, rejected))) :
    valid.length + rejected.length = data.length ∧
    ∃ outs : List (Bool × Rec),
      List.Forall₂ (fun r tag => (recOutcome o db table req r).2 = Except.ok tag) data outs ∧
      valid = (outs.filter (fun tag => tag.1)).map Prod.snd ∧
      rejected = (outs.filter (fun tag => !tag.1)).map Prod.snd := by
  have hspec := classifyLoop_ok_spec o db table req data valid rejected ops hrun
  obtain ⟨outs, hfa, hv, hrj⟩ :=
    classifySpec_ok_filter o db table req data valid rejected ops hspec
  have hlen : outs.length = data.length := (List.Forall₂.length_eq hfa).symm
  refine ⟨?_, outs, hfa, hv, hrj⟩
  rw [hv, hrj]
  simp only [List.length_map]
  rw [length_filter_tag outs, hlen]

/-- C2, witnessed at a two-record batch with one valid and one rejected
record. -/
theorem c2_partition_order_witness :
    ([recDept] : List Rec).length + ([recNoField] : List Rec).length =
      ([recDept, recNoField] : List Rec).length ∧
    ∃ outs : List (Bool × Rec),
      List.Forall₂
        (fun r tag => (recOutcome oracleNone dbEmpty "departments" ["department"] r).2 =
          Except.ok tag) [recDept, recNoField] outs ∧
      [recDept] = (outs.filter (fun tag => tag.1)).map Prod.snd ∧
      [recNoField] = (outs.filter (fun tag => !tag.1)).map Prod.snd :=
  c2_partition_order oracleNone dbEmpty "departments" ["department"]
    [recDept, recNoField] [recDept] [recNoField] [] rfl rfl

/-- C8: when the classification loop completes with an empty valid list,
the handler returns a response with `success = false` without executing a
single insert (the trace holds no insert operation and the database is
unchanged); and whenever the handler returns a response at all, its
`success` flag is true exactly when the valid list is non-empty. -/
theorem c8_success_iff_valid (o : Oracle) (db0 : DB) (table : String) (req : List String)
    (data valid rejected : List Rec) (ops : List DbOp)
    (hreq : TABLE_SCHEMAS table = some req)
    (hcls : classifyLoop o db0 table req data [] [] = (ops, Except.ok (valid, rejected))) :
    (valid = [] →
      insert_data o db0 table data =
        (HandlerOut.resp ⟨false, countMsg 0 table, rejected⟩, db0,
         DbOp.beginTx :: (ops ++ [DbOp.commitTx])) ∧
      ∀ op ∈ DbOp.beginTx :: (ops ++ [DbOp.commitTx]), isInsertOp op = false) ∧
    (∀ (r : InsertResponse) (db1 : DB) (tr : List DbOp),
      insert_data o db0 table data = (HandlerOut.resp r, db1, tr) →
      (r.success = true ↔ valid ≠ [])) := by
  constructor
  · intro hval
    subst hval
    refine ⟨by simp [insert_data, hreq, hcls, countMsg], ?_⟩
    intro op hop
    rcases List.mem_cons.mp hop with h1 | h2
    · rw [h1]; rfl
    · rcases List.mem_append.mp h2 with h3 | h4
      · exact classifySpec_ops_no_insert o db0 table req data ops _
          (classifyLoop_ok_spec o db0 table req data [] rejected ops hcls) op h3
      · simp only [List.mem_singleton] at h4
        rw [h4]; rfl
  · intro r db1 tr heq
    cases hval : valid with
    | nil =>
      rw [hval] at hcls
      simp [insert_data, hreq, hcls] at heq
      rw [← heq.1]
      simp
    | cons a l =>
      rw [hval] at hcls
      rcases hcomm : commitLoop o table req db0 (a :: l) with ⟨ops2, res2⟩
      rcases res2 with e2 | db2
      · simp [insert_data, hreq, hcls, hcomm] at heq
      · simp [insert_data, hreq, hcls, hcomm] at heq
        rw [← heq.1]
        simp

/-- C8, witnessed at a call whose only record is rejected. -/
theorem c8_success_iff_valid_witness :
    insert_data oracleNone dbEmpty "departments" [recNoField] =
      (HandlerOut.resp ⟨false, countMsg 0 "departments", [recNoField]⟩, dbEmpty,
       DbOp.beginTx :: (([] : List DbOp) ++ [DbOp.commitTx])) :=
  ((c8_success_iff_valid oracleNone dbEmpty "departments" ["department"]
    [recNoField] [] [recNoField] [] rfl rfl).1 rfl).1

theorem recOutcome_jobFail (o : Oracle) (db : DB) (req : List String) (rec : Rec)
    (s : String) (d : PyDateTime) (e : StoreErr) (n : Nat)
    (hs : structOk req rec = true)
    (hv : recFind rec "hire_datetime" = some (Value.str s))
    (hp : pyFromIso (replaceZ s) = some d)
    (hdc : fetchCountDep o db ((recFind rec "department_id").getD Value.null) = Except.ok n)
    (hjob : o.jobFails ((recFind rec "job_id").getD Value.null) = some e) :
    recOutcome o db "hired_employees" req rec =
      ([DbOp.countDep ((recFind rec "department_id").getD Value.null),
        DbOp.countJob ((recFind rec "job_id").getD Value.null)],
       Except.error (PipeErr.store e)) := by
  have hneD : ("hire_datetime" : String) ≠ "department_id" := by decide
  have hneJ : ("hire_datetime" : String) ≠ "job_id" := by decide
  simp [recOutcome, hs, hv, hp, recFind_recSet_ne _ _ _ _ hneD,
    recFind_recSet_ne _ _ _ _ hneJ, hdc, fetchCountJob, hjob]

/-- C9: a store failure during either referential existence check or
during the commit is fatal for the whole call and never becomes a
per-record referential rejection. Conjunct one: store unavailable during
the organizational-unit check — the record is never classified, the call
aborts with HTTP 500 after that single check, and the transaction rolls
back. Conjunct two: the organizational-unit check succeeded and the store
fails during the job-title check — likewise fatal after the two checks.
Conjunct three: the store fails while an insert of the commit loop
executes — the call aborts with HTTP 500 and the database reverts to its
pre-call state. -/
theorem c9_store_failure_fatal (o : Oracle) (db0 : DB) (req : List String)
    (pre post : List Rec) (rec : Rec) (s : String) (d : PyDateTime) (e : StoreErr)
    (ops0 : List DbOp) (v0 r0 : List Rec)
    (hreq : TABLE_SCHEMAS "hired_employees" = some req)
    (hs : structOk req rec = true)
    (hv : recFind rec "hire_datetime" = some (Value.str s))
    (hp : pyFromIso (replaceZ s) = some d)
    (hpre : classifyLoop o db0 "hired_employees" req pre [] [] =
      (ops0, Except.ok (v0, r0))) :
    (o.depFails ((recFind rec "department_id").getD Value.null) = some e →
      (∀ (b : Bool) (r2 : Rec),
        (recOutcome o db0 "hired_employees" req rec).2 ≠ Except.ok (b, r2)) ∧
      insert_data o db0 "hired_employees" (pre ++ rec :: post) =
        (HandlerOut.httpError 500 (pipeErrDetail (PipeErr.store e)), db0,
         DbOp.beginTx ::
           ((ops0 ++ [DbOp.countDep ((recFind rec "department_id").getD Value.null)]) ++
            [DbOp.rollbackTx]))) ∧
    (∀ n : Nat,
      fetchCountDep o db0 ((recFind rec "department_id").getD Value.null) = Except.ok n →
      o.jobFails ((recFind rec "job_id").getD Value.null) = some e →
      (∀ (b : Bool) (r2 : Rec),
        (recOutcome o db0 "hired_employees" req rec).2 ≠ Except.ok (b, r2)) ∧
      insert_data o db0 "hired_employees" (pre ++ rec :: post) =
        (HandlerOut.httpError 500 (pipeErrDetail (PipeErr.store e)), db0,
         DbOp.beginTx ::
           ((ops0 ++ [DbOp.countDep ((recFind rec "department_id").getD Value.null),
                      DbOp.countJob ((recFind rec "job_id").getD Value.null)]) ++
            [DbOp.rollbackTx]))) ∧
    (∀ (data valid rejected : List Rec) (ops opsc : List DbOp),
      classifyLoop o db0 "hired_employees" req data [] [] =
        (ops, Except.ok (valid, rejected)) →
      valid ≠ [] →
      commitLoop o "hired_employees" req db0 valid = (opsc, Except.error (PipeErr.store e)) →
      (insert_data o db0 "hired_employees" data).1 =
        HandlerOut.httpError 500 (pipeErrDetail (PipeErr.store e)) ∧
      (insert_data o db0 "hired_employees" data).2.1 = db0) := by
  have hspecPre := classifyLoop_ok_spec o db0 "hired_employees" req pre v0 r0 ops0 hpre
  refine ⟨?_, ?_, ?_⟩
  · intro hdep
    have hout := recOutcome_depFail o db0 req rec s d e hs hv hp hdep
    constructor
    · intro b r2 hcontra
      rw [hout] at hcontra
      simp at hcontra
    · have hspecRec : classifySpec o db0 "hired_employees" req (rec :: post) =
          ([DbOp.countDep ((recFind rec "department_id").getD Value.null)],
           Except.error (PipeErr.store e)) := by
        simp [classifySpec, hout]
      have happ := classifySpec_append_error o db0 "hired_employees" req pre (rec :: post)
        ops0 [DbOp.countDep ((recFind rec "department_id").getD Value.null)] v0 r0
        (PipeErr.store e) hspecPre hspecRec
      have hloop := classifyLoop_error_spec o db0 "hired_employees" req (pre ++ rec :: post)
        (ops0 ++ [DbOp.countDep ((recFind rec "department_id").getD Value.null)])
        (PipeErr.store e) happ
      simp [insert_data, hreq, hloop]
  · intro n hdc hjob
    have hout := recOutcome_jobFail o db0 req rec s d e n hs hv hp hdc hjob
    constructor
    · intro b r2 hcontra
      rw [hout] at hcontra
      simp at hcontra
    · have hspecRec : classifySpec o db0 "hired_employees" req (rec :: post) =
          ([DbOp.countDep ((recFind rec "department_id").getD Value.null),
            DbOp.countJob ((recFind rec "job_id").getD Value.null)],
           Except.error (PipeErr.store e)) := by
        simp [classifySpec, hout]
      have happ := classifySpec_append_error o db0 "hired_employees" req pre (rec :: post)
        ops0 [DbOp.countDep ((recFind rec "department_id").getD Value.null),
              DbOp.countJob ((recFind rec "job_id").getD Value.null)] v0 r0
        (PipeErr.store e) hspecPre hspecRec
      have hloop := classifyLoop_error_spec o db0 "hired_employees" req (pre ++ rec :: post)
        (ops0 ++ [DbOp.countDep ((recFind rec "department_id").getD Value.null),
                  DbOp.countJob ((recFind rec "job_id").getD Value.null)])
        (PipeErr.store e) happ
      simp [insert_data, hreq, hloop]
  · intro data valid rejected ops opsc hcls hne hcomm
    have hemp : valid.isEmpty = false := by
      cases valid with
      | nil => exact absurd rfl hne
      | cons a l => rfl
    simp [insert_data, hreq, hcls, hemp, hcomm]

/-- C9, witnessed at concrete calls hitting an unavailable store during
the departments check, during the jobs check, and during the commit. -/
theorem c9_store_failure_fatal_witness :
    insert_data oracleDepFail dbRefs "hired_employees" [recHire] =
      (HandlerOut.httpError 500 (pipeErrDetail (PipeErr.store StoreErr.unavailable)), dbRefs,
       DbOp.beginTx :: ((([] : List DbOp) ++ [DbOp.countDep (Value.int 1)]) ++
         [DbOp.rollbackTx])) ∧
    insert_data oracleJobFail dbRefs "hired_employees" [recHire] =
      (HandlerOut.httpError 500 (pipeErrDetail (PipeErr.store StoreErr.unavailable)), dbRefs,
       DbOp.beginTx :: ((([] : List DbOp) ++
         [DbOp.countDep (Value.int 1), DbOp.countJob (Value.int 1)]) ++
         [DbOp.rollbackTx])) ∧
    (insert_data oracleInsUnavail dbRefs "hired_employees" [recHire]).1 =
      HandlerOut.httpError 500 (pipeErrDetail (PipeErr.store StoreErr.unavailable)) ∧
    (insert_data oracleInsUnavail dbRefs "hired_employees" [recHire]).2.1 = dbRefs :=
  ⟨((c9_store_failure_fatal oracleDepFail dbRefs hiredReq [] [] recHire
      "2021-05-15T14:30:00Z" dtParsed StoreErr.unavailable [] [] []
      rfl rfl rfl rfl rfl).1 rfl).2,
   ((c9_store_failure_fatal oracleJobFail dbRefs hiredReq [] [] recHire
      "2021-05-15T14:30:00Z" dtParsed StoreErr.unavailable [] [] []
      rfl rfl rfl rfl rfl).2.1 1 rfl rfl).2,
   (c9_store_failure_fatal oracleInsUnavail dbRefs hiredReq [] [] recHire
      "2021-05-15T14:30:00Z" dtParsed StoreErr.unavailable [] [] []
      rfl rfl rfl rfl rfl).2.2 [recHire]
      [recSet recHire "hire_datetime" (Value.dt dtParsed)] []
      [DbOp.countDep (Value.int 1), DbOp.countJob (Value.int 1)]
      [DbOp.insertRow "hired_employees"
        [Value.str "A", Value.dt dtParsed, Value.int 1, Value.int 1]]
      rfl (List.cons_ne_nil _ _) rfl⟩
